import Mathlib

/-!
Shallow embedding of the LicenseEdictSDK license lifecycle engine
(token verification, offline-first validation, renewal, heartbeat events),
together with theorems settling the specification claims.

Bytes are modelled as `Nat` (values < 256 where produced by decoding),
Go `time.Time` as `Int` Unix nanoseconds with `0` standing for the zero
time (`IsZero`), and `time.Duration` as `Int` nanoseconds.  External
library calls (`ed25519.Verify`, `json.Unmarshal`) are parameters of the
embedding; the filesystem cache and the HTTP transport are passed in as
explicit outcomes, mirroring the values the Go code inspects.
-/

namespace LicenseEdict

/-! ## Base64 (Go `encoding/base64` StdEncoding) -/

/-- Index of a character in the standard base64 alphabet, `none` for
characters outside it (mirrors Go's decode map). -/
def b64Index (ch : Char) : Option Nat :=
  if 'A' ≤ ch ∧ ch ≤ 'Z' then some (ch.toNat - 65)
  else if 'a' ≤ ch ∧ ch ≤ 'z' then some (ch.toNat - 97 + 26)
  else if '0' ≤ ch ∧ ch ≤ '9' then some (ch.toNat - 48 + 52)
  else if ch = '+' then some 62
  else if ch = '/' then some 63
  else none

/-- Decode a list of base64 characters in 4-character quanta with `=`
padding allowed only in the final quantum, as Go's
`base64.StdEncoding.DecodeString` accepts. -/
def b64DecodeGo : List Char → Option (List Nat)
  | [] => some []
  | c1 :: c2 :: c3 :: c4 :: rest =>
    match b64Index c1, b64Index c2 with
    | some i1, some i2 =>
      if c3 = '=' then
        if c4 = '=' ∧ rest = [] then some [i1 * 4 + i2 / 16] else none
      else
        match b64Index c3 with
        | some i3 =>
          if c4 = '=' then
            if rest = [] then some [i1 * 4 + i2 / 16, (i2 % 16) * 16 + i3 / 4]
            else none
          else
            match b64Index c4 with
            | some i4 =>
              match b64DecodeGo rest with
              | some bs =>
                some ((i1 * 4 + i2 / 16) :: ((i2 % 16) * 16 + i3 / 4) ::
                      ((i3 % 4) * 64 + i4) :: bs)
              | none => none
            | none => none
        | none => none
    | _, _ => none
  | _ => none

/-- Go `base64.StdEncoding.DecodeString` over a Lean string. -/
def base64DecodeString (s : String) : Option (List Nat) :=
  b64DecodeGo s.data

/-- Character of the standard base64 alphabet at index `i` (for `i < 64`). -/
def b64Chr (i : Nat) : Char :=
  if i < 26 then Char.ofNat (65 + i)
  else if i < 52 then Char.ofNat (97 + (i - 26))
  else if i < 62 then Char.ofNat (48 + (i - 52))
  else if i = 62 then '+' else '/'

/-- Encode a byte list in the standard base64 alphabet with padding,
as Go's `base64.StdEncoding.EncodeToString` produces. -/
def b64EncodeGo : List Nat → List Char
  | [] => []
  | [b1] => [b64Chr (b1 / 4), b64Chr ((b1 % 4) * 16), '=', '=']
  | [b1, b2] => [b64Chr (b1 / 4), b64Chr ((b1 % 4) * 16 + b2 / 16),
                 b64Chr ((b2 % 16) * 4), '=']
  | b1 :: b2 :: b3 :: rest =>
    b64Chr (b1 / 4) :: b64Chr ((b1 % 4) * 16 + b2 / 16) ::
    b64Chr ((b2 % 16) * 4 + b3 / 64) :: b64Chr (b3 % 64) :: b64EncodeGo rest

/-! ## Data model (token.go, licenseedict.go parts) -/

/-- Error codes of `ValidationError`, declared in the errors file of the
package (staged after the document separator in
examples/concurrency/main.go).  In Go each code is a distinct string
constant; they are modelled as an enumeration with one constructor per
constant, which is faithful to equality because the constant strings are
pairwise distinct. -/
inductive VCode
  | LicenseDecodeError
  | PubKeyDecodeError
  | InvalidLicenseSignature
  | LicenseNotValidBefore
  | LicenseNotValidAfter
  | LicenseRevoked
  | ServerUnreachable
  | SeatLimitReached
  | RenewalFailed
deriving DecidableEq, Repr

/-- Go `ValidationError`: a code plus a human-readable message (the
wrapped cause is dropped; codes are the stable contract). -/
structure VError where
  code : VCode
  message : String
deriving DecidableEq, Repr

/-- A Go `error` value as the SDK constructs and returns them (errors
file of the package, staged after the document separator in
examples/concurrency/main.go): either a sentinel created by
`errors.New`, identified here by its message string — all sentinel
messages in the source are pairwise distinct — or a `*ValidationError`.
A sentinel is never equal to a `ValidationError`, as in Go. -/
inductive GoError
  | errorString (message : String)
  | validationError (e : VError)
deriving DecidableEq, Repr

/-- Go sentinel `ErrNoPublicKey`. -/
def ErrNoPublicKey : GoError :=
  .errorString "licenseedict: no public key configured"

/-- Go sentinel `ErrNoToken`. -/
def ErrNoToken : GoError :=
  .errorString "licenseedict: no signed token provided"

/-- Go sentinel `ErrNoServerURL`. -/
def ErrNoServerURL : GoError :=
  .errorString "licenseedict: no server URL available"

/-- Go sentinel `ErrClientClosed`. -/
def ErrClientClosed : GoError :=
  .errorString "licenseedict: client is closed"

/-- Go sentinel `ErrAlreadyRunning`. -/
def ErrAlreadyRunning : GoError :=
  .errorString "licenseedict: heartbeat already running"

/-- Go sentinel `ErrNotRunning`. -/
def ErrNotRunning : GoError :=
  .errorString "licenseedict: heartbeat not running"

/-- Go `tokenPayload` (token.go): the server's `LicenseTokenPayload`. -/
structure TokenPayload where
  LicenseID : String
  ProductID : String
  LicenseKey : String
  Licensee : String
  Plan : String
  Features : List String
  MaxSeats : Int
  IssuedAt : Int
  ExpiresAt : Int
  ServerURL : String
deriving DecidableEq, Repr

/-- Go `License` (decoded, user-facing license information). -/
structure License where
  Valid : Bool
  LicenseID : String
  ProductID : String
  LicenseKey : String
  Licensee : String
  Plan : String
  Features : List String
  MaxSeats : Int
  IssuedAt : Int
  ExpiresAt : Int
  ServerURL : String
  SignedToken : String
deriving DecidableEq, Repr

/-- The zero value `License{}` returned by Go on error paths. -/
def emptyLicense : License :=
  { Valid := false, LicenseID := "", ProductID := "", LicenseKey := ""
    Licensee := "", Plan := "", Features := [], MaxSeats := 0
    IssuedAt := 0, ExpiresAt := 0, ServerURL := "", SignedToken := "" }

/-- External collaborators of the verifier: `ed25519.Verify pk msg sig`
and `json.Unmarshal` of a payload document. -/
structure CryptoEnv where
  ed25519Verify : List Nat → List Nat → List Nat → Bool
  unmarshalPayload : List Nat → Option TokenPayload

/-- Go `ed25519.SignatureSize`. -/
def signatureSize : Nat := 64

/-- Go `ed25519.PublicKeySize`. -/
def publicKeySize : Nat := 32

/-- Go `verifyToken` (token.go): base64-decode, split signature and
payload, verify the Ed25519 signature, then decode the JSON payload. -/
def verifyToken (env : CryptoEnv) (pubKey : List Nat) (signedToken : String) :
    Except VError TokenPayload :=
  match base64DecodeString signedToken with
  | none => .error ⟨.LicenseDecodeError, "failed to base64-decode token"⟩
  | some combined =>
    if combined.length ≤ signatureSize then
      .error ⟨.LicenseDecodeError, "token too short"⟩
    else
      let signature := combined.take signatureSize
      let payloadBytes := combined.drop signatureSize
      if ¬ env.ed25519Verify pubKey payloadBytes signature then
        .error ⟨.InvalidLicenseSignature, "Ed25519 signature verification failed"⟩
      else
        match env.unmarshalPayload payloadBytes with
        | none => .error ⟨.LicenseDecodeError, "failed to decode token payload"⟩
        | some payload => .ok payload

/-- Go `DecodePublicKey` (token.go): base64-decode and check the
Ed25519 public-key length. -/
def DecodePublicKey (encoded : String) : Except VError (List Nat) :=
  match base64DecodeString encoded with
  | none => .error ⟨.PubKeyDecodeError, "failed to base64-decode public key"⟩
  | some decoded =>
    if decoded.length ≠ publicKeySize then
      .error ⟨.PubKeyDecodeError, "invalid public key length"⟩
    else .ok decoded

/-- Go `payloadToLicense` (token.go).  A `nil` feature slice becomes the
empty slice; in the model `Features` is already a list. -/
def payloadToLicense (p : TokenPayload) (signedToken : String) (valid : Bool) :
    License :=
  { Valid := valid, LicenseID := p.LicenseID, ProductID := p.ProductID
    LicenseKey := p.LicenseKey, Licensee := p.Licensee, Plan := p.Plan
    Features := p.Features, MaxSeats := p.MaxSeats, IssuedAt := p.IssuedAt
    ExpiresAt := p.ExpiresAt, ServerURL := p.ServerURL
    SignedToken := signedToken }

/-! ## Client configuration and state (options.go, unnamed client file) -/

/-- The fields of Go `clientConfig` (options.go) that the lifecycle
engine reads.  Durations are `Int` nanoseconds with `0` = unset. -/
structure ClientConfig where
  publicKey : Option (List Nat)
  publicKeyStr : String
  token : String
  serverURL : String
  appName : String
  appPublisher : String
  offlineOnly : Bool
  instanceID : String
  heartbeatInterval : Int
  renewBefore : Int
  disableAutoRenew : Bool
deriving DecidableEq, Repr

/-- The zero `clientConfig{}` NewClient starts from. -/
def emptyConfig : ClientConfig :=
  { publicKey := none, publicKeyStr := "", token := "", serverURL := ""
    appName := "", appPublisher := "", offlineOnly := false, instanceID := ""
    heartbeatInterval := 0, renewBefore := 0, disableAutoRenew := false }

/-- Go `Option`: a function mutating the configuration. -/
def ClientOption : Type := ClientConfig → ClientConfig

/-- Go `WithPublicKey` (options.go): stores the encoded string and, only
when decoding succeeds, the decoded key; a decode error is discarded. -/
def WithPublicKey (key : String) : ClientOption := fun c =>
  let c := { c with publicKeyStr := key }
  match DecodePublicKey key with
  | .ok decoded => { c with publicKey := some decoded }
  | .error _ => c

/-- Go `WithPublicKeyRaw` (options.go). -/
def WithPublicKeyRaw (key : List Nat) : ClientOption := fun c =>
  { c with publicKey := some key }

/-- Go `WithToken` (options.go). -/
def WithToken (token : String) : ClientOption := fun c =>
  { c with token := token }

/-- Go `WithServerURL` (options.go). -/
def WithServerURL (url : String) : ClientOption := fun c =>
  { c with serverURL := url }

/-- Go `WithRenewBefore` (options.go). -/
def WithRenewBefore (d : Int) : ClientOption := fun c =>
  { c with renewBefore := d }

/-- Go `WithoutAutoRenew` (options.go). -/
def WithoutAutoRenew : ClientOption := fun c =>
  { c with disableAutoRenew := true }

/-- Go `WithOfflineOnly` (options.go). -/
def WithOfflineOnly : ClientOption := fun c =>
  { c with offlineOnly := true }

/-- The license-lock-protected fields of Go `Client` plus its closed
flag; heartbeat sub-state, cache manager and transport are passed to the
operations explicitly. -/
structure Client where
  cfg : ClientConfig
  license : Option License
  signedToken : String
  closed : Bool
deriving DecidableEq, Repr

/-- Go `NewClient`: folds the options over the zero configuration,
pre-stores a configured token, and always returns a `nil` error. -/
def NewClient (opts : List ClientOption) : Client × Option GoError :=
  let cfg := opts.foldl (fun c o => o c) emptyConfig
  let c : Client :=
    { cfg := cfg, license := none
      signedToken := if cfg.token ≠ "" then cfg.token else ""
      closed := false }
  (c, none)

/-- Go `resolveServerURL` (unnamed client file): explicit configuration
first, else the URL of the stored license. -/
def resolveServerURL (c : Client) : String :=
  if c.cfg.serverURL ≠ "" then c.cfg.serverURL
  else
    match c.license with
    | some l => l.ServerURL
    | none => ""

/-! ## Validation engine (validate.go) -/

/-- Go `defaultRenewBefore = 7 * 24 * time.Hour`, in nanoseconds. -/
def defaultRenewBefore : Int := 604800000000000

/-- Token resolution at the head of `Validate` (validate.go): explicit
non-empty argument, else the stored token, else the configured token.
The variadic Go parameter is a list of strings. -/
def resolveToken (args : List String) (c : Client) : String :=
  let token :=
    match args with
    | a :: _ => if a ≠ "" then a else ""
    | [] => ""
  let token := if token = "" then c.signedToken else token
  if token = "" then c.cfg.token else token

/-- Go `maybeAutoRenew` (validate.go), as the decision whether a
background renewal goroutine is spawned. -/
def maybeAutoRenew (cfg : ClientConfig) (license : Option License) (now : Int) :
    Bool :=
  if cfg.disableAutoRenew ∨ cfg.offlineOnly then false
  else
    match license with
    | none => false
    | some l =>
      if ¬ l.Valid ∨ l.ExpiresAt = 0 then false
      else
        let threshold :=
          if cfg.renewBefore = 0 then defaultRenewBefore else cfg.renewBefore
        let timeLeft := l.ExpiresAt - now
        if timeLeft > threshold then false else true

/-- The `license` local of `Validate` (validate.go): the license built
from a verified payload, with the two independent temporal checks that
can only flip `Valid` from `true` to `false`. -/
def temporalLicense (payload : TokenPayload) (token : String) (now : Int) :
    License :=
  let license0 := payloadToLicense payload token true
  let license1 :=
    if payload.IssuedAt ≠ 0 ∧ now < payload.IssuedAt then
      { license0 with Valid := false }
    else license0
  if payload.ExpiresAt ≠ 0 ∧ now > payload.ExpiresAt then
    { license1 with Valid := false }
  else license1

/-- Everything a `Validate` call returns and effects: the returned
license value and error, the post-call client, the argument of the
best-effort cache write when one is issued, and whether a background
auto-renewal was spawned. -/
structure ValidateOutput where
  lic : License
  err : Option GoError
  client : Client
  cacheSaved : Option License
  renewTriggered : Bool
deriving Repr

/-- Go `Validate` (validate.go).  `cacheLoad` is the outcome of
`c.cache.load()` (cache.go always pairs a `nil` error with a non-nil
license, so the Go check `cacheErr == nil && cached != nil` is the `ok`
case); `now` is `time.Now()`. -/
def Validate (env : CryptoEnv) (now : Int) (cacheLoad : Except GoError License)
    (c : Client) (args : List String) : ValidateOutput :=
  if c.closed then ⟨emptyLicense, some ErrClientClosed, c, none, false⟩
  else
    let token := resolveToken args c
    if token = "" then ⟨emptyLicense, some ErrNoToken, c, none, false⟩
    else
      match c.cfg.publicKey with
      | none => ⟨emptyLicense, some ErrNoPublicKey, c, none, false⟩
      | some pk =>
        match verifyToken env pk token with
        | .error e =>
          match cacheLoad with
          | .ok cached => ⟨cached, none, c, none, false⟩
          | .error _ => ⟨emptyLicense, some (.validationError e), c, none, false⟩
        | .ok payload =>
          let license := temporalLicense payload token now
          let cfg :=
            if c.cfg.serverURL = "" ∧ license.ServerURL ≠ "" then
              { c.cfg with serverURL := license.ServerURL }
            else c.cfg
          let c' : Client :=
            { c with cfg := cfg, license := some license, signedToken := token }
          ⟨license, none, c', some license, maybeAutoRenew cfg (some license) now⟩

/-- Go `ValidateFromCache` (validate.go): returned license, error, and
post-call client. -/
def ValidateFromCache (cacheLoad : Except GoError License) (c : Client) :
    Option License × Option GoError × Client :=
  if c.closed then (none, some ErrClientClosed, c)
  else
    match cacheLoad with
    | .error err => (none, some err, c)
    | .ok cached =>
      let c' : Client :=
        { c with
          license := some cached
          signedToken :=
            if cached.SignedToken ≠ "" then cached.SignedToken
            else c.signedToken }
      (some cached, none, c')

/-! ## Events and server response shapes (events.go) -/

/-- Go `EventType` (events.go). -/
inductive EventType
  | HeartbeatOK
  | HeartbeatRejected
  | HeartbeatError
  | SeatReleased
  | LicenseRenewed
  | ServerUnreachable
deriving DecidableEq, Repr

/-- Go `HeartbeatStatus` (events.go): the server's heartbeat response. -/
structure HeartbeatStatus where
  Status : String
  ActiveSessions : Int
  MaxSessions : Int
  RemainingSessions : Int
  HeartbeatInterval : Int
  GracePeriod : Int
  LicenseID : String
  ProductID : String
deriving DecidableEq, Repr

/-- Go `RenewalResult` (events.go): the server's renewal response. -/
structure RenewalResult where
  Status : String
  SignedToken : String
  IssuedAt : String
  ExpiresAt : String
  PreviousExpiresAt : String
deriving DecidableEq, Repr

/-- The concrete payloads carried in Go's `Event.Data interface{}`. -/
inductive EventData
  | noData
  | heartbeat (s : HeartbeatStatus)
  | renewal (r : RenewalResult)
deriving DecidableEq, Repr

/-- Go `Event` (events.go); `Type` is a Lean keyword, so the field is
named `etype`. -/
structure Event where
  etype : EventType
  message : String
  data : EventData
deriving DecidableEq, Repr

/-! ## Renewal coordinator (renewal.go) -/

/-- Everything a `Renew` call returns and effects.  `events` records the
`emitEvent` calls issued (delivery on the bounded channel may still drop
them). -/
structure RenewOutput where
  lic : Option License
  err : Option GoError
  client : Client
  events : List Event
  cacheSaved : Option License
  renewTriggered : Bool
deriving Repr

/-- Go `Renew` (renewal.go).  `serverResp` is the outcome of
`postJSON` on the renew endpoint: a transport error string, or a status
code with the decoded `RenewalResult`. -/
def Renew (env : CryptoEnv) (now : Int) (cacheLoad : Except GoError License)
    (serverResp : Except String (Nat × RenewalResult)) (c : Client) :
    RenewOutput :=
  if c.closed then ⟨none, some ErrClientClosed, c, [], none, false⟩
  else
    let serverURL := resolveServerURL c
    if serverURL = "" then ⟨none, some ErrNoServerURL, c, [], none, false⟩
    else
      let token := if c.signedToken = "" then c.cfg.token else c.signedToken
      if token = "" then ⟨none, some ErrNoToken, c, [], none, false⟩
      else
        match serverResp with
        | .error _ =>
          ⟨none, some (.validationError ⟨.RenewalFailed, "renewal request failed"⟩),
           c, [], none, false⟩
        | .ok (statusCode, result) =>
          if statusCode ≠ 200 then
            ⟨none,
             some (.validationError ⟨.RenewalFailed,
               "renewal returned status " ++ toString statusCode⟩),
             c, [], none, false⟩
          else
            if result.SignedToken ≠ "" ∧ c.cfg.publicKey.isSome then
              let v := Validate env now cacheLoad c [result.SignedToken]
              if v.err = none ∧ v.lic.Valid then
                ⟨some v.lic, none, v.client,
                 [⟨.LicenseRenewed, "license renewed", .renewal result⟩],
                 v.cacheSaved, v.renewTriggered⟩
              else
                let license := { emptyLicense with SignedToken := result.SignedToken }
                let c1 :=
                  if result.SignedToken ≠ "" then
                    { v.client with signedToken := result.SignedToken }
                  else v.client
                ⟨some license, none, c1, [], v.cacheSaved, v.renewTriggered⟩
            else
              let license := { emptyLicense with SignedToken := result.SignedToken }
              let c1 :=
                if result.SignedToken ≠ "" then
                  { c with signedToken := result.SignedToken }
                else c
              ⟨some license, none, c1, [], none, false⟩

/-- Everything a `RenewResult` call returns and effects. -/
structure RenewResultOutput where
  result : Option RenewalResult
  err : Option GoError
  client : Client
  events : List Event
  cacheSaved : Option License
  renewTriggered : Bool
deriving Repr

/-- Go `RenewResult` (renewal.go): the legacy variant returning the raw
renewal response; state changes only through the re-validation call. -/
def RenewResult (env : CryptoEnv) (now : Int) (cacheLoad : Except GoError License)
    (serverResp : Except String (Nat × RenewalResult)) (c : Client) :
    RenewResultOutput :=
  if c.closed then ⟨none, some ErrClientClosed, c, [], none, false⟩
  else
    let serverURL := resolveServerURL c
    if serverURL = "" then ⟨none, some ErrNoServerURL, c, [], none, false⟩
    else
      let token := if c.signedToken = "" then c.cfg.token else c.signedToken
      if token = "" then ⟨none, some ErrNoToken, c, [], none, false⟩
      else
        match serverResp with
        | .error _ =>
          ⟨none, some (.validationError ⟨.RenewalFailed, "renewal request failed"⟩),
           c, [], none, false⟩
        | .ok (statusCode, result) =>
          if statusCode ≠ 200 then
            ⟨none,
             some (.validationError ⟨.RenewalFailed,
               "renewal returned status " ++ toString statusCode⟩),
             c, [], none, false⟩
          else
            if result.SignedToken ≠ "" ∧ c.cfg.publicKey.isSome then
              let v := Validate env now cacheLoad c [result.SignedToken]
              if v.err = none ∧ v.lic.Valid then
                ⟨some result, none, v.client,
                 [⟨.LicenseRenewed, "license renewed", .renewal result⟩],
                 v.cacheSaved, v.renewTriggered⟩
              else
                ⟨some result, none, v.client, [], v.cacheSaved, v.renewTriggered⟩
            else
              ⟨some result, none, c, [], none, false⟩

/-! ## Heartbeat send (concurrency.go) -/

/-- Go `defaultHeartbeatInterval = 30 * time.Second`, in nanoseconds. -/
def defaultHeartbeatInterval : Int := 30000000000

/-- Go `sendHeartbeat` (concurrency.go): the events emitted for one send
and the scheduler interval after the send.  `resp` is the outcome of
`postJSON` on the heartbeat endpoint: a transport error string, or a
status code with the decoded `HeartbeatStatus`. -/
def sendHeartbeat (resp : Except String (Nat × HeartbeatStatus))
    (interval : Int) : List Event × Int :=
  match resp with
  | .error e => ([⟨.HeartbeatError, e, .noData⟩], interval)
  | .ok (statusCode, r) =>
    if statusCode = 200 then
      let newInterval :=
        if r.HeartbeatInterval > 0 then r.HeartbeatInterval * 1000000000
        else interval
      ([⟨.HeartbeatOK, "heartbeat accepted", .heartbeat r⟩], newInterval)
    else if statusCode = 429 then
      ([⟨.HeartbeatRejected, "seat limit reached", .heartbeat r⟩], interval)
    else
      ([⟨.HeartbeatError, "heartbeat returned status " ++ toString statusCode,
         .heartbeat r⟩], interval)

/-! ## Concrete fixtures used by witnesses and counterexamples -/

/-- A syntactically valid base64 token: 88 alphabet characters, decoding
to 66 zero bytes (64 signature bytes + 2 payload bytes). -/
def tok88 : String := String.mk (List.replicate 88 'A')

/-- A concrete decoded token payload. -/
def payload0 : TokenPayload :=
  { LicenseID := "L1", ProductID := "P1", LicenseKey := "K1", Licensee := "Me"
    Plan := "pro", Features := ["PRO"], MaxSeats := 5, IssuedAt := 10
    ExpiresAt := 100, ServerURL := "https://srv" }

/-- An environment whose signature check accepts everything and whose
payload decoder yields `payload0`. -/
def envAccept : CryptoEnv :=
  { ed25519Verify := fun _ _ _ => true
    unmarshalPayload := fun _ => some payload0 }

/-- An environment whose signature check rejects everything. -/
def envReject : CryptoEnv :=
  { ed25519Verify := fun _ _ _ => false
    unmarshalPayload := fun _ => some payload0 }

/-- A concrete 32-byte public key. -/
def pk0 : List Nat := List.replicate 32 0

/-- A fresh client configured with `pk0` and nothing else. -/
def c0 : Client :=
  { cfg := { emptyConfig with publicKey := some pk0 }, license := none
    signedToken := "", closed := false }

/-- The error value of a cache miss (`os.ErrNotExist`). -/
def cacheMissErr : GoError := .errorString "file does not exist"

/-- A concrete cached license carrying its own signed token. -/
def cachedLic : License :=
  { emptyLicense with Valid := true, LicenseID := "CACHED", SignedToken := "tc" }

/-- A concrete stored license whose signed token is `"t0"`. -/
def L0 : License :=
  { emptyLicense with
    Valid := true, LicenseID := "L0", SignedToken := "t0"
    ServerURL := "https://srv" }

/-- A client with no verification key, a stored license `L0` and stored
token `"t0"`, and an explicit server URL. -/
def cNoKey : Client :=
  { cfg := { emptyConfig with serverURL := "https://srv" }
    license := some L0, signedToken := "t0", closed := false }

/-- A concrete renewal response carrying a fresh signed token `"t2"`. -/
def rr2 : RenewalResult :=
  { Status := "renewed", SignedToken := "t2", IssuedAt := ""
    ExpiresAt := "", PreviousExpiresAt := "" }

/-- A concrete heartbeat response payload. -/
def hb0 : HeartbeatStatus :=
  { Status := "limit", ActiveSessions := 1, MaxSessions := 1
    RemainingSessions := 0, HeartbeatInterval := 0, GracePeriod := 0
    LicenseID := "", ProductID := "" }

/-- A concrete heartbeat response payload carrying a new interval. -/
def hb45 : HeartbeatStatus :=
  { Status := "active", ActiveSessions := 1, MaxSessions := 5
    RemainingSessions := 4, HeartbeatInterval := 45, GracePeriod := 0
    LicenseID := "L1", ProductID := "P1" }

/-! ## Helper lemmas -/

/-- Resolution of an explicit non-empty token argument. -/
theorem resolveToken_explicit (t : String) (c : Client) (h : t ≠ "") :
    resolveToken [t] c = t := by
  simp [resolveToken, h]

/-- Decoding inverts the alphabet map on every valid index. -/
theorem b64Index_b64Chr : ∀ i : Nat, i < 64 → b64Index (b64Chr i) = some i := by
  decide

/-- No alphabet character is the padding character. -/
theorem b64Chr_ne_pad : ∀ i : Nat, i < 64 → b64Chr i ≠ '=' := by
  decide

/-- Standard base64 decoding inverts encoding on byte lists. -/
theorem b64_roundtrip : ∀ bs : List Nat, (∀ b ∈ bs, b < 256) →
    b64DecodeGo (b64EncodeGo bs) = some bs
  | [], _ => rfl
  | [b1], h => by
    have hb1 : b1 < 256 := h b1 (by simp)
    have h1 : b1 / 4 < 64 := by omega
    have h2 : (b1 % 4) * 16 < 64 := by omega
    simp only [b64EncodeGo, b64DecodeGo, b64Index_b64Chr _ h1,
      b64Index_b64Chr _ h2]
    simp
    omega
  | [b1, b2], h => by
    have hb1 : b1 < 256 := h b1 (by simp)
    have hb2 : b2 < 256 := h b2 (by simp)
    have h1 : b1 / 4 < 64 := by omega
    have h2 : (b1 % 4) * 16 + b2 / 16 < 64 := by omega
    have h3 : (b2 % 16) * 4 < 64 := by omega
    simp only [b64EncodeGo, b64DecodeGo, b64Index_b64Chr _ h1,
      b64Index_b64Chr _ h2, b64Index_b64Chr _ h3]
    rw [if_neg (b64Chr_ne_pad _ h3)]
    simp
    omega
  | b1 :: b2 :: b3 :: rest, h => by
    have hb1 : b1 < 256 := h b1 (by simp)
    have hb2 : b2 < 256 := h b2 (by simp)
    have hb3 : b3 < 256 := h b3 (by simp)
    have ih := b64_roundtrip rest (fun b hb => h b (by simp [hb]))
    have h1 : b1 / 4 < 64 := by omega
    have h2 : (b1 % 4) * 16 + b2 / 16 < 64 := by omega
    have h3 : (b2 % 16) * 4 + b3 / 64 < 64 := by omega
    have h4 : b3 % 64 < 64 := by omega
    simp only [b64EncodeGo, b64DecodeGo, b64Index_b64Chr _ h1,
      b64Index_b64Chr _ h2, b64Index_b64Chr _ h3, b64Index_b64Chr _ h4]
    rw [if_neg (b64Chr_ne_pad _ h3), if_neg (b64Chr_ne_pad _ h4), ih]
    simp
    omega

/-- The temporal checks never touch the embedded signed token. -/
theorem temporalLicense_SignedToken (p : TokenPayload) (t : String) (now : Int) :
    (temporalLicense p t now).SignedToken = t := by
  simp only [temporalLicense, payloadToLicense]
  split <;> split <;> rfl

/-- The temporal checks never touch the server URL. -/
theorem temporalLicense_ServerURL (p : TokenPayload) (t : String) (now : Int) :
    (temporalLicense p t now).ServerURL = p.ServerURL := by
  simp only [temporalLicense, payloadToLicense]
  split <;> split <;> rfl

/-- The temporal checks never touch the expiry timestamp. -/
theorem temporalLicense_ExpiresAt (p : TokenPayload) (t : String) (now : Int) :
    (temporalLicense p t now).ExpiresAt = p.ExpiresAt := by
  simp only [temporalLicense, payloadToLicense]
  split <;> split <;> rfl

/-- A verified token whose expiry is set and in the past yields an
invalid license. -/
theorem temporalLicense_Valid_expired (p : TokenPayload) (t : String)
    (now : Int) (hexp : p.ExpiresAt ≠ 0) (hlt : now > p.ExpiresAt) :
    (temporalLicense p t now).Valid = false := by
  simp only [temporalLicense, payloadToLicense]
  rw [if_pos ⟨hexp, hlt⟩]

/-- The committed license's validity, spelled out: `true` exactly when
neither temporal check fires. -/
theorem temporalLicense_Valid_iff (p : TokenPayload) (t : String) (now : Int) :
    (temporalLicense p t now).Valid = true ↔
      (¬(p.IssuedAt ≠ 0 ∧ now < p.IssuedAt) ∧
       ¬(p.ExpiresAt ≠ 0 ∧ now > p.ExpiresAt)) := by
  simp only [temporalLicense, payloadToLicense]
  split <;> split <;> simp_all

/-- Branch equation: `Validate` on a closed client. -/
theorem Validate_closed_eq (env : CryptoEnv) (now : Int)
    (cacheLoad : Except GoError License) (c : Client) (args : List String)
    (hcl : c.closed = true) :
    Validate env now cacheLoad c args =
      ⟨emptyLicense, some ErrClientClosed, c, none, false⟩ := by
  simp only [Validate, hcl, if_pos]

/-- Branch equation: `Validate` when no token resolves. -/
theorem Validate_noToken_eq (env : CryptoEnv) (now : Int)
    (cacheLoad : Except GoError License) (c : Client) (args : List String)
    (hcl : ¬c.closed = true) (htok : resolveToken args c = "") :
    Validate env now cacheLoad c args =
      ⟨emptyLicense, some ErrNoToken, c, none, false⟩ := by
  simp only [Validate, hcl, htok, if_neg, if_pos, ite_false, ite_true]
  simp

/-- Branch equation: `Validate` when a token resolves but no
verification key is configured. -/
theorem Validate_noKey_eq (env : CryptoEnv) (now : Int)
    (cacheLoad : Except GoError License) (c : Client) (args : List String)
    (hcl : ¬c.closed = true) (htok : resolveToken args c ≠ "")
    (hpk : c.cfg.publicKey = none) :
    Validate env now cacheLoad c args =
      ⟨emptyLicense, some ErrNoPublicKey, c, none, false⟩ := by
  simp only [Validate, hcl, htok, hpk]
  simp

/-- Branch equation: `Validate` when verification fails and the cache
holds a license. -/
theorem Validate_fallback_eq (env : CryptoEnv) (now : Int) (l : License)
    (c : Client) (args : List String) (pk : List Nat) (e : VError)
    (hcl : ¬c.closed = true) (htok : resolveToken args c ≠ "")
    (hpk : c.cfg.publicKey = some pk)
    (hv : verifyToken env pk (resolveToken args c) = Except.error e) :
    Validate env now (Except.ok l) c args = ⟨l, none, c, none, false⟩ := by
  simp only [Validate, hcl, htok, hpk, hv]
  simp

/-- Branch equation: `Validate` when verification fails and the cache
load fails too. -/
theorem Validate_hardFail_eq (env : CryptoEnv) (now : Int) (u : GoError)
    (c : Client) (args : List String) (pk : List Nat) (e : VError)
    (hcl : ¬c.closed = true) (htok : resolveToken args c ≠ "")
    (hpk : c.cfg.publicKey = some pk)
    (hv : verifyToken env pk (resolveToken args c) = Except.error e) :
    Validate env now (Except.error u) c args =
      ⟨emptyLicense, some (.validationError e), c, none, false⟩ := by
  simp only [Validate, hcl, htok, hpk, hv]
  simp

/-- Branch equation: the commit path of `Validate`. -/
theorem Validate_commit_eq (env : CryptoEnv) (now : Int)
    (cacheLoad : Except GoError License) (c : Client) (args : List String)
    (pk : List Nat) (payload : TokenPayload)
    (hcl : ¬c.closed = true) (htok : resolveToken args c ≠ "")
    (hpk : c.cfg.publicKey = some pk)
    (hv : verifyToken env pk (resolveToken args c) = Except.ok payload) :
    Validate env now cacheLoad c args =
      (let token := resolveToken args c
       let license := temporalLicense payload token now
       let cfg :=
         if c.cfg.serverURL = "" ∧ license.ServerURL ≠ "" then
           { c.cfg with serverURL := license.ServerURL }
         else c.cfg
       ⟨license, none,
        { c with cfg := cfg, license := some license, signedToken := token },
        some license, maybeAutoRenew cfg (some license) now⟩) := by
  simp only [Validate, hcl, htok, hpk, hv]
  simp

/-- Every `Validate` run either leaves the client untouched or commits:
the stored license is the returned one, and the stored token is both the
resolved token and the committed license's `SignedToken`. -/
theorem Validate_state_cases (env : CryptoEnv) (now : Int)
    (cacheLoad : Except GoError License) (c : Client) (args : List String) :
    (Validate env now cacheLoad c args).client = c ∨
    ((Validate env now cacheLoad c args).client.license =
       some (Validate env now cacheLoad c args).lic ∧
     (Validate env now cacheLoad c args).client.signedToken =
       (Validate env now cacheLoad c args).lic.SignedToken ∧
     (Validate env now cacheLoad c args).client.signedToken =
       resolveToken args c ∧
     (Validate env now cacheLoad c args).err = none) := by
  by_cases hcl : c.closed
  · exact Or.inl (by simp [Validate, hcl])
  by_cases htok : resolveToken args c = ""
  · exact Or.inl (by simp [Validate, hcl, htok])
  cases hpk : c.cfg.publicKey with
  | none => exact Or.inl (by simp [Validate, hcl, htok, hpk])
  | some pk =>
    cases hv : verifyToken env pk (resolveToken args c) with
    | error e =>
      cases cacheLoad <;>
        exact Or.inl (by simp [Validate, hcl, htok, hpk, hv])
    | ok payload =>
      right
      simp only [Validate, hcl, htok, hpk, hv]
      refine ⟨?_, ?_, ?_, ?_⟩ <;> simp [hcl, temporalLicense_SignedToken]

/-- Every `Validate` run either leaves the stored License/token pair
unchanged or replaces both with a matching pair. -/
theorem Validate_unit_shape (env : CryptoEnv) (now : Int)
    (cacheLoad : Except GoError License) (c : Client) (args : List String) :
    ((Validate env now cacheLoad c args).client.license = c.license ∧
     (Validate env now cacheLoad c args).client.signedToken = c.signedToken) ∨
    (∃ l, (Validate env now cacheLoad c args).client.license = some l ∧
          (Validate env now cacheLoad c args).client.signedToken =
            l.SignedToken) := by
  rcases Validate_state_cases env now cacheLoad c args with h | ⟨h1, h2, _, _⟩
  · exact Or.inl (by rw [h]; exact ⟨rfl, rfl⟩)
  · exact Or.inr ⟨(Validate env now cacheLoad c args).lic, h1, h2⟩

/-- Every `ValidateFromCache` run either leaves the client unchanged or
stores the cached license, updating the token only when the cached
license carries one. -/
theorem ValidateFromCache_shape (cacheLoad : Except GoError License)
    (c : Client) :
    (ValidateFromCache cacheLoad c).2.2 = c ∨
    (∃ l, (ValidateFromCache cacheLoad c).2.2.license = some l ∧
          (ValidateFromCache cacheLoad c).2.2.signedToken =
            (if l.SignedToken ≠ "" then l.SignedToken else c.signedToken)) := by
  by_cases hcl : c.closed
  · exact Or.inl (by simp [ValidateFromCache, hcl])
  cases cacheLoad with
  | error u => exact Or.inl (by simp [ValidateFromCache, hcl])
  | ok cached =>
    exact Or.inr ⟨cached, by simp [ValidateFromCache, hcl]⟩

/-- Every `Renew` run either keeps the stored License (possibly storing
a new token alone) or commits a matching License/token pair. -/
theorem Renew_shape (env : CryptoEnv) (now : Int)
    (cacheLoad : Except GoError License)
    (serverResp : Except String (Nat × RenewalResult)) (c : Client) :
    (Renew env now cacheLoad serverResp c).client.license = c.license ∨
    (∃ l, (Renew env now cacheLoad serverResp c).client.license = some l ∧
          (Renew env now cacheLoad serverResp c).client.signedToken =
            l.SignedToken) := by
  by_cases hcl : c.closed
  · exact Or.inl (by simp [Renew, hcl])
  by_cases hurl : resolveServerURL c = ""
  · exact Or.inl (by simp [Renew, hcl, hurl])
  by_cases htk : (if c.signedToken = "" then c.cfg.token else c.signedToken) = ""
  · exact Or.inl (by simp only [Renew, if_neg hcl, if_pos htk, if_neg hurl])
  cases serverResp with
  | error e => exact Or.inl (by simp [Renew, hcl, hurl, htk])
  | ok pr =>
    obtain ⟨statusCode, result⟩ := pr
    by_cases hst : statusCode ≠ 200
    · exact Or.inl (by simp [Renew, hcl, hurl, htk, hst])
    by_cases hrv : result.SignedToken ≠ "" ∧ c.cfg.publicKey.isSome
    · have hvs := Validate_state_cases env now cacheLoad c [result.SignedToken]
      by_cases hok : (Validate env now cacheLoad c [result.SignedToken]).err
            = none ∧ (Validate env now cacheLoad c [result.SignedToken]).lic.Valid
      · have hR : (Renew env now cacheLoad (Except.ok (statusCode, result)) c).client
            = (Validate env now cacheLoad c [result.SignedToken]).client := by
          simp only [Renew, if_neg hcl, if_neg hurl, if_neg htk, if_neg hst,
            if_pos hrv, if_pos hok]
        rw [hR]
        rcases hvs with h | ⟨h1, h2, _, _⟩
        · exact Or.inl (by rw [h])
        · exact Or.inr ⟨(Validate env now cacheLoad c [result.SignedToken]).lic, h1, h2⟩
      · have hR : (Renew env now cacheLoad (Except.ok (statusCode, result)) c).client
            = { (Validate env now cacheLoad c [result.SignedToken]).client with
                signedToken := result.SignedToken } := by
          simp only [Renew, if_neg hcl, if_neg hurl, if_neg htk, if_neg hst,
            if_pos hrv, if_neg hok, if_pos hrv.1]
        rw [hR]
        rcases hvs with h | ⟨h1, h2, h3, _⟩
        · exact Or.inl (by rw [h])
        · refine Or.inr ⟨(Validate env now cacheLoad c [result.SignedToken]).lic, h1, ?_⟩
          rw [← h2, h3, resolveToken_explicit result.SignedToken c hrv.1]
    · have hR : (Renew env now cacheLoad (Except.ok (statusCode, result)) c).client
          = (if result.SignedToken ≠ "" then
               { c with signedToken := result.SignedToken } else c) := by
        simp only [Renew, if_neg hcl, if_neg hurl, if_neg htk, if_neg hst,
          if_neg hrv]
      rw [hR]
      split <;> exact Or.inl rfl

/-- Every `RenewResult` run either leaves the stored License/token pair
unchanged or commits a matching pair (state changes only through the
nested re-validation). -/
theorem RenewResult_shape (env : CryptoEnv) (now : Int)
    (cacheLoad : Except GoError License)
    (serverResp : Except String (Nat × RenewalResult)) (c : Client) :
    ((RenewResult env now cacheLoad serverResp c).client.license = c.license ∧
     (RenewResult env now cacheLoad serverResp c).client.signedToken =
       c.signedToken) ∨
    (∃ l, (RenewResult env now cacheLoad serverResp c).client.license = some l ∧
          (RenewResult env now cacheLoad serverResp c).client.signedToken =
            l.SignedToken) := by
  by_cases hcl : c.closed
  · exact Or.inl (by simp [RenewResult, hcl])
  by_cases hurl : resolveServerURL c = ""
  · exact Or.inl (by simp [RenewResult, hcl, hurl])
  by_cases htk : (if c.signedToken = "" then c.cfg.token else c.signedToken) = ""
  · left
    simp only [RenewResult, if_neg hcl, if_neg hurl, if_pos htk]
    exact ⟨trivial, trivial⟩
  cases serverResp with
  | error e => exact Or.inl (by simp [RenewResult, hcl, hurl, htk])
  | ok pr =>
    obtain ⟨statusCode, result⟩ := pr
    by_cases hst : statusCode ≠ 200
    · exact Or.inl (by simp [RenewResult, hcl, hurl, htk, hst])
    by_cases hrv : result.SignedToken ≠ "" ∧ c.cfg.publicKey.isSome
    · have hvs := Validate_state_cases env now cacheLoad c [result.SignedToken]
      have hR : (RenewResult env now cacheLoad (Except.ok (statusCode, result)) c).client
          = (Validate env now cacheLoad c [result.SignedToken]).client := by
        by_cases hok : (Validate env now cacheLoad c [result.SignedToken]).err
              = none ∧ (Validate env now cacheLoad c [result.SignedToken]).lic.Valid
        · simp only [RenewResult, if_neg hcl, if_neg hurl, if_neg htk,
            if_neg hst, if_pos hrv, if_pos hok]
        · simp only [RenewResult, if_neg hcl, if_neg hurl, if_neg htk,
            if_neg hst, if_pos hrv, if_neg hok]
      rw [hR]
      rcases hvs with h | ⟨h1, h2, _, _⟩
      · exact Or.inl (by rw [h]; exact ⟨rfl, rfl⟩)
      · exact Or.inr ⟨(Validate env now cacheLoad c [result.SignedToken]).lic, h1, h2⟩
    · left
      simp only [RenewResult, if_neg hcl, if_neg hurl, if_neg htk, if_neg hst,
        if_neg hrv]
      exact ⟨trivial, trivial⟩

/-! ## Claims -/

/-- Claim C1, counterexample: `Renew` on a client with no verification
key (stored license `L0` with token `"t0"`) and a 200 renewal response
carrying token `"t2"` stores the new token while leaving the stored
License untouched, so the stored token is updated without the stored
License being replaced with a matching one. -/
theorem claim_C1_counterexample :
    (Renew envAccept 0 (Except.error cacheMissErr) (Except.ok (200, rr2))
        cNoKey).client.signedToken = "t2" ∧
    cNoKey.signedToken = "t0" ∧
    (Renew envAccept 0 (Except.error cacheMissErr) (Except.ok (200, rr2))
        cNoKey).client.license = cNoKey.license ∧
    cNoKey.license = some L0 ∧
    L0.SignedToken = "t0" := by
  refine ⟨rfl, rfl, rfl, rfl, rfl⟩

/-- Claim C1 (amended): `Validate` and `RenewResult` always either leave
the stored License/token pair unchanged or replace both together with a
matching pair (the stored License's `SignedToken` equals the stored
token); `Renew` keeps the stored License unchanged whenever it does not
commit such a matching pair (its fallback path stores the new token
alone); and `ValidateFromCache` stores the cached license, carrying the
token along only when the cached license has a non-empty one. -/
theorem claim_C1_amended :
    (∀ env now cacheLoad c args,
      ((Validate env now cacheLoad c args).client.license = c.license ∧
       (Validate env now cacheLoad c args).client.signedToken =
         c.signedToken) ∨
      (∃ l, (Validate env now cacheLoad c args).client.license = some l ∧
            (Validate env now cacheLoad c args).client.signedToken =
              l.SignedToken)) ∧
    (∀ cacheLoad c,
      (ValidateFromCache cacheLoad c).2.2 = c ∨
      (∃ l, (ValidateFromCache cacheLoad c).2.2.license = some l ∧
            (ValidateFromCache cacheLoad c).2.2.signedToken =
              (if l.SignedToken ≠ "" then l.SignedToken
               else c.signedToken))) ∧
    (∀ env now cacheLoad serverResp c,
      (Renew env now cacheLoad serverResp c).client.license = c.license ∨
      (∃ l, (Renew env now cacheLoad serverResp c).client.license = some l ∧
            (Renew env now cacheLoad serverResp c).client.signedToken =
              l.SignedToken)) ∧
    (∀ env now cacheLoad serverResp c,
      ((RenewResult env now cacheLoad serverResp c).client.license =
         c.license ∧
       (RenewResult env now cacheLoad serverResp c).client.signedToken =
         c.signedToken) ∨
      (∃ l, (RenewResult env now cacheLoad serverResp c).client.license =
              some l ∧
            (RenewResult env now cacheLoad serverResp c).client.signedToken =
              l.SignedToken)) :=
  ⟨Validate_unit_shape, ValidateFromCache_shape, Renew_shape,
   RenewResult_shape⟩

/-- Claim C2: a token that verifies under the configured key but whose
expires-at is nonzero and earlier than `now` makes `Validate` return an
invalid license with no error, and that very license is handed to the
cache write. -/
theorem claim_C2 (env : CryptoEnv) (now : Int)
    (cacheLoad : Except GoError License) (c : Client) (args : List String)
    (pk : List Nat) (payload : TokenPayload)
    (hcl : ¬c.closed = true) (htok : resolveToken args c ≠ "")
    (hpk : c.cfg.publicKey = some pk)
    (hv : verifyToken env pk (resolveToken args c) = Except.ok payload)
    (hexp : payload.ExpiresAt ≠ 0) (hpast : payload.ExpiresAt < now) :
    (Validate env now cacheLoad c args).err = none ∧
    (Validate env now cacheLoad c args).lic.Valid = false ∧
    (Validate env now cacheLoad c args).cacheSaved =
      some (Validate env now cacheLoad c args).lic := by
  rw [Validate_commit_eq env now cacheLoad c args pk payload hcl htok hpk hv]
  exact ⟨rfl,
    temporalLicense_Valid_expired payload (resolveToken args c) now hexp hpast,
    rfl⟩

/-- Witness for claim C2 at a concrete expired token. -/
theorem claim_C2_witness :
    (Validate envAccept 200 (Except.error cacheMissErr) c0 [tok88]).err = none ∧
    (Validate envAccept 200 (Except.error cacheMissErr) c0 [tok88]).lic.Valid = false ∧
    (Validate envAccept 200 (Except.error cacheMissErr) c0 [tok88]).cacheSaved =
      some (Validate envAccept 200 (Except.error cacheMissErr) c0 [tok88]).lic :=
  claim_C2 envAccept 200 (Except.error cacheMissErr) c0 [tok88] pk0 payload0
    (by decide) (by decide) rfl rfl (by decide) (by decide)

/-- Claim C3: when token verification fails, `Validate` returns a loaded
cached license as-is with no error, and otherwise returns the verifier's
error with an empty License. -/
theorem claim_C3 (env : CryptoEnv) (now : Int) (c : Client)
    (args : List String) (pk : List Nat) (e : VError)
    (hcl : ¬c.closed = true) (htok : resolveToken args c ≠ "")
    (hpk : c.cfg.publicKey = some pk)
    (hv : verifyToken env pk (resolveToken args c) = Except.error e) :
    (∀ l : License,
      (Validate env now (Except.ok l) c args).lic = l ∧
      (Validate env now (Except.ok l) c args).err = none) ∧
    (∀ u : GoError,
      (Validate env now (Except.error u) c args).lic = emptyLicense ∧
      (Validate env now (Except.error u) c args).err =
        some (GoError.validationError e)) := by
  constructor
  · intro l
    rw [Validate_fallback_eq env now l c args pk e hcl htok hpk hv]
    exact ⟨rfl, rfl⟩
  · intro u
    rw [Validate_hardFail_eq env now u c args pk e hcl htok hpk hv]
    exact ⟨rfl, rfl⟩

/-- Witness for claim C3 with a rejecting verifier, exercised both with
and without a cached license. -/
theorem claim_C3_witness :
    (Validate envReject 0 (Except.ok cachedLic) c0 [tok88]).lic = cachedLic ∧
    (Validate envReject 0 (Except.ok cachedLic) c0 [tok88]).err = none ∧
    (Validate envReject 0 (Except.error cacheMissErr) c0 [tok88]).err =
      some (GoError.validationError
        ⟨.InvalidLicenseSignature, "Ed25519 signature verification failed"⟩) := by
  have h := claim_C3 envReject 0 c0 [tok88] pk0
    ⟨.InvalidLicenseSignature, "Ed25519 signature verification failed"⟩
    (by decide) (by decide) rfl rfl
  exact ⟨(h.1 cachedLic).1, (h.1 cachedLic).2, (h.2 cacheMissErr).2⟩

/-- Claim C5: `Validate` resolves the token as explicit argument, else
stored token, else configured token; no token resolved fails with the
`NoToken` sentinel, and a resolved token without a configured key fails
with the `NoPublicKey` sentinel. -/
theorem claim_C5 (env : CryptoEnv) (now : Int)
    (cacheLoad : Except GoError License) (c : Client) (args : List String)
    (hcl : ¬c.closed = true) :
    (resolveToken args c =
      (let argTok :=
        match args with
        | a :: _ => if a ≠ "" then a else ""
        | [] => ""
       if argTok ≠ "" then argTok
       else if c.signedToken ≠ "" then c.signedToken
       else c.cfg.token)) ∧
    (resolveToken args c = "" →
      (Validate env now cacheLoad c args).err = some ErrNoToken) ∧
    (resolveToken args c ≠ "" → c.cfg.publicKey = none →
      (Validate env now cacheLoad c args).err = some ErrNoPublicKey) := by
  refine ⟨?_, ?_, ?_⟩
  · simp only [resolveToken]
    cases args with
    | nil => by_cases h : c.signedToken = "" <;> simp [h]
    | cons a rest =>
      by_cases ha : a = "" <;> by_cases h : c.signedToken = "" <;> simp [ha, h]
  · intro htok
    rw [Validate_noToken_eq env now cacheLoad c args hcl htok]
  · intro htok hpk
    rw [Validate_noKey_eq env now cacheLoad c args hcl htok hpk]

/-- Witness for claim C5: no resolvable token on a fresh client, a
resolvable token on a keyless client, and explicit-argument priority. -/
theorem claim_C5_witness :
    (Validate envAccept 0 (Except.error cacheMissErr) c0 []).err =
      some ErrNoToken ∧
    (Validate envAccept 0 (Except.error cacheMissErr) cNoKey ["x"]).err =
      some ErrNoPublicKey ∧
    resolveToken ["x"] c0 = "x" := by
  refine ⟨(claim_C5 envAccept 0 (Except.error cacheMissErr) c0 [] (by decide)).2.1
      (by decide),
    (claim_C5 envAccept 0 (Except.error cacheMissErr) cNoKey ["x"] (by decide)).2.2
      (by decide) rfl,
    ((claim_C5 envAccept 0 (Except.error cacheMissErr) c0 ["x"] (by decide)).1).trans
      (by decide)⟩

/-- Claim C9: on the cache-fallback path (verification failure with a
cache hit) `Validate` leaves the client entirely unchanged, issues no
cache write, spawns no auto-renewal, and returns the cached license with
no error. -/
theorem claim_C9 (env : CryptoEnv) (now : Int) (l : License) (c : Client)
    (args : List String) (pk : List Nat) (e : VError)
    (hcl : ¬c.closed = true) (htok : resolveToken args c ≠ "")
    (hpk : c.cfg.publicKey = some pk)
    (hv : verifyToken env pk (resolveToken args c) = Except.error e) :
    (Validate env now (Except.ok l) c args).client = c ∧
    (Validate env now (Except.ok l) c args).cacheSaved = none ∧
    (Validate env now (Except.ok l) c args).renewTriggered = false ∧
    (Validate env now (Except.ok l) c args).lic = l ∧
    (Validate env now (Except.ok l) c args).err = none := by
  rw [Validate_fallback_eq env now l c args pk e hcl htok hpk hv]
  exact ⟨rfl, rfl, rfl, rfl, rfl⟩

/-- Witness for claim C9 at a concrete failing verification with a
cache hit. -/
theorem claim_C9_witness :
    (Validate envReject 7 (Except.ok cachedLic) c0 [tok88]).client = c0 ∧
    (Validate envReject 7 (Except.ok cachedLic) c0 [tok88]).cacheSaved =
      none ∧
    (Validate envReject 7 (Except.ok cachedLic) c0 [tok88]).renewTriggered =
      false ∧
    (Validate envReject 7 (Except.ok cachedLic) c0 [tok88]).lic =
      cachedLic :=
  have h := claim_C9 envReject 7 cachedLic c0 [tok88] pk0
    ⟨.InvalidLicenseSignature, "Ed25519 signature verification failed"⟩
    (by decide) (by decide) rfl rfl
  ⟨h.1, h.2.1, h.2.2.1, h.2.2.2.1⟩

/-- Exact trigger condition of `maybeAutoRenew`. -/
theorem maybeAutoRenew_iff (cfg : ClientConfig) (lic : Option License)
    (now : Int) :
    maybeAutoRenew cfg lic now = true ↔
      (cfg.disableAutoRenew = false ∧ cfg.offlineOnly = false ∧
       ∃ l, lic = some l ∧ l.Valid = true ∧ l.ExpiresAt ≠ 0 ∧
            l.ExpiresAt - now ≤
              (if cfg.renewBefore = 0 then defaultRenewBefore
               else cfg.renewBefore)) := by
  unfold maybeAutoRenew
  by_cases h1 : cfg.disableAutoRenew ∨ cfg.offlineOnly
  · rcases h1 with h | h <;> simp [h]
  · push_neg at h1
    obtain ⟨hd, ho⟩ := h1
    simp only [Bool.not_eq_true] at hd ho
    cases lic with
    | none => simp [hd, ho]
    | some l =>
      by_cases hval : l.Valid = true
      · by_cases hexp : l.ExpiresAt = 0
        · simp [hd, ho, hval, hexp]
        · by_cases hle : l.ExpiresAt - now ≤
              (if cfg.renewBefore = 0 then defaultRenewBefore
               else cfg.renewBefore)
          · simp only [hd, ho, Bool.false_eq_true, or_self, if_false]
            simp [hval, hexp, hle]
            omega
          · simp only [hd, ho, Bool.false_eq_true, or_self, if_false]
            simp [hval, hexp, hle]
            omega
      · simp [hd, ho, hval]

/-- The server-URL adoption step changes no other configuration field. -/
theorem adoptURL_fields (cfg : ClientConfig) (u : String) (cond : Prop)
    [Decidable cond] :
    ((if cond then { cfg with serverURL := u } else cfg).disableAutoRenew
       = cfg.disableAutoRenew) ∧
    ((if cond then { cfg with serverURL := u } else cfg).offlineOnly
       = cfg.offlineOnly) ∧
    ((if cond then { cfg with serverURL := u } else cfg).renewBefore
       = cfg.renewBefore) := by
  split <;> exact ⟨rfl, rfl, rfl⟩

/-- Claim C6: after a committing `Validate`, a background renewal is
triggered exactly when auto-renew is not disabled, the client is not
offline-only, the committed license is valid with a nonzero expiry, and
the time left until expiry is at or below the configured threshold
(7 days when none is configured). -/
theorem claim_C6 (env : CryptoEnv) (now : Int)
    (cacheLoad : Except GoError License) (c : Client) (args : List String)
    (pk : List Nat) (payload : TokenPayload)
    (hcl : ¬c.closed = true) (htok : resolveToken args c ≠ "")
    (hpk : c.cfg.publicKey = some pk)
    (hv : verifyToken env pk (resolveToken args c) = Except.ok payload) :
    (Validate env now cacheLoad c args).renewTriggered = true ↔
      (c.cfg.disableAutoRenew = false ∧ c.cfg.offlineOnly = false ∧
       ∃ l, (Validate env now cacheLoad c args).client.license = some l ∧
            l.Valid = true ∧ l.ExpiresAt ≠ 0 ∧
            l.ExpiresAt - now ≤
              (if c.cfg.renewBefore = 0 then defaultRenewBefore
               else c.cfg.renewBefore)) := by
  rw [Validate_commit_eq env now cacheLoad c args pk payload hcl htok hpk hv]
  rw [maybeAutoRenew_iff]
  have h := adoptURL_fields c.cfg
    (temporalLicense payload (resolveToken args c) now).ServerURL
    (c.cfg.serverURL = "" ∧
     (temporalLicense payload (resolveToken args c) now).ServerURL ≠ "")
  rw [h.1, h.2.1, h.2.2]

/-- Witness for claim C6 at a concrete committing `Validate` whose
license expires within the default threshold. -/
theorem claim_C6_witness :
    (Validate envAccept 50 (Except.error cacheMissErr) c0 [tok88]).renewTriggered
      = true := by
  have h := claim_C6 envAccept 50 (Except.error cacheMissErr) c0 [tok88] pk0 payload0
    (by decide) (by decide) rfl rfl
  rw [h]
  refine ⟨rfl, rfl,
    ⟨temporalLicense payload0 tok88 50, ?_, by decide, by decide, by decide⟩⟩
  rfl

/-- Claim C7: every heartbeat send emits exactly one event determined by
its outcome — transport error: `HeartbeatError` with the error text;
status 200: `HeartbeatOK` with the payload, adopting a positive server
interval; status 429: `HeartbeatRejected` (and never `HeartbeatError`);
any other status: `HeartbeatError` with the status code. -/
theorem claim_C7 :
    (∀ resp interval, ((sendHeartbeat resp interval).1).length = 1) ∧
    (∀ e interval, sendHeartbeat (Except.error e) interval =
      ([⟨.HeartbeatError, e, .noData⟩], interval)) ∧
    (∀ r interval, sendHeartbeat (Except.ok (200, r)) interval =
      ([⟨.HeartbeatOK, "heartbeat accepted", .heartbeat r⟩],
       if r.HeartbeatInterval > 0 then r.HeartbeatInterval * 1000000000
       else interval)) ∧
    (∀ r interval,
      sendHeartbeat (Except.ok (429, r)) interval =
        ([⟨.HeartbeatRejected, "seat limit reached", .heartbeat r⟩],
         interval) ∧
      ∀ ev ∈ (sendHeartbeat (Except.ok (429, r)) interval).1,
        ev.etype ≠ .HeartbeatError) ∧
    (∀ s r interval, s ≠ 200 → s ≠ 429 →
      sendHeartbeat (Except.ok (s, r)) interval =
        ([⟨.HeartbeatError, "heartbeat returned status " ++ toString s,
           .heartbeat r⟩], interval)) := by
  refine ⟨?_, ?_, ?_, ?_, ?_⟩
  · intro resp interval
    cases resp with
    | error e => rfl
    | ok pr =>
      obtain ⟨s, r⟩ := pr
      by_cases h200 : s = 200
      · simp [sendHeartbeat, h200]
      · by_cases h429 : s = 429 <;> simp [sendHeartbeat, h200, h429]
  · intro e interval; rfl
  · intro r interval; rfl
  · intro r interval
    refine ⟨rfl, ?_⟩
    intro ev hev
    simp only [sendHeartbeat] at hev
    norm_num at hev
    rw [hev]
    simp
  · intro s r interval h200 h429
    simp [sendHeartbeat, h200, h429]

/-- Witness for claim C7 at concrete heartbeat outcomes: a 429 response,
a 200 response with a 45-second interval, and a 503 response. -/
theorem claim_C7_witness :
    (sendHeartbeat (Except.ok (429, hb0)) 5).1.length = 1 ∧
    sendHeartbeat (Except.ok (429, hb0)) 5 =
      ([⟨.HeartbeatRejected, "seat limit reached", .heartbeat hb0⟩], 5) ∧
    sendHeartbeat (Except.ok (200, hb45)) 5 =
      ([⟨.HeartbeatOK, "heartbeat accepted", .heartbeat hb45⟩],
       45000000000) ∧
    sendHeartbeat (Except.ok (503, hb0)) 5 =
      ([⟨.HeartbeatError, "heartbeat returned status 503",
         .heartbeat hb0⟩], 5) := by
  refine ⟨claim_C7.1 (Except.ok (429, hb0)) 5,
    (claim_C7.2.2.2.1 hb0 5).1,
    (claim_C7.2.2.1 hb45 5).trans (by decide),
    (claim_C7.2.2.2.2 503 hb0 5 (by decide) (by decide)).trans (by decide)⟩

/-- On any run, `Validate` never overwrites a non-empty configured
server URL. -/
theorem Validate_serverURL_mono (env : CryptoEnv) (now : Int)
    (cacheLoad : Except GoError License) (c : Client) (args : List String)
    (h : c.cfg.serverURL ≠ "") :
    (Validate env now cacheLoad c args).client.cfg.serverURL =
      c.cfg.serverURL := by
  by_cases hcl : c.closed = true
  · rw [Validate_closed_eq env now cacheLoad c args hcl]
  by_cases htok : resolveToken args c = ""
  · rw [Validate_noToken_eq env now cacheLoad c args hcl htok]
  cases hpk : c.cfg.publicKey with
  | none => rw [Validate_noKey_eq env now cacheLoad c args hcl htok hpk]
  | some pk =>
    cases hv : verifyToken env pk (resolveToken args c) with
    | error e =>
      cases cacheLoad with
      | ok l => rw [Validate_fallback_eq env now l c args pk e hcl htok hpk hv]
      | error u =>
        rw [Validate_hardFail_eq env now u c args pk e hcl htok hpk hv]
    | ok payload =>
      rw [Validate_commit_eq env now cacheLoad c args pk payload hcl htok
        hpk hv]
      have hc : ¬(c.cfg.serverURL = "" ∧
          (temporalLicense payload (resolveToken args c) now).ServerURL
            ≠ "") := fun hco => h hco.1
      simp [hc]

/-- Claim C8: `Validate` adopts the payload's server URL only into an
empty configuration, and once the configured server URL is non-empty no
sequence of further `Validate` calls changes it. -/
theorem claim_C8 :
    (∀ env now cacheLoad c args, c.cfg.serverURL ≠ "" →
      (Validate env now cacheLoad c args).client.cfg.serverURL =
        c.cfg.serverURL) ∧
    (∀ env now cacheLoad c args pk payload,
      ¬c.closed = true → resolveToken args c ≠ "" →
      c.cfg.publicKey = some pk →
      verifyToken env pk (resolveToken args c) = Except.ok payload →
      c.cfg.serverURL = "" → payload.ServerURL ≠ "" →
      (Validate env now cacheLoad c args).client.cfg.serverURL =
        payload.ServerURL) ∧
    (∀ steps : List (CryptoEnv × Int × Except GoError License × List String),
      ∀ c : Client, c.cfg.serverURL ≠ "" →
      (steps.foldl
        (fun cl s => (Validate s.1 s.2.1 s.2.2.1 cl s.2.2.2).client)
        c).cfg.serverURL = c.cfg.serverURL) := by
  refine ⟨fun env now cacheLoad c args h =>
      Validate_serverURL_mono env now cacheLoad c args h, ?_, ?_⟩
  · intro env now cacheLoad c args pk payload hcl htok hpk hv hempty hpsu
    rw [Validate_commit_eq env now cacheLoad c args pk payload hcl htok
      hpk hv]
    have hsu : (temporalLicense payload (resolveToken args c) now).ServerURL
        = payload.ServerURL :=
      temporalLicense_ServerURL payload (resolveToken args c) now
    have hc : c.cfg.serverURL = "" ∧
        (temporalLicense payload (resolveToken args c) now).ServerURL ≠ "" :=
      ⟨hempty, by rw [hsu]; exact hpsu⟩
    simp [hc, hsu]
    rw [if_neg hpsu]
  · intro steps
    induction steps with
    | nil => intro c h; rfl
    | cons s rest ih =>
      intro c h
      have h1 := Validate_serverURL_mono s.1 s.2.1 s.2.2.1 c s.2.2.2 h
      rw [List.foldl_cons,
        ih ((Validate s.1 s.2.1 s.2.2.1 c s.2.2.2).client)
          (by rw [h1]; exact h)]
      exact h1

/-- Witness for claim C8: a non-empty configured URL survives a
`Validate` call and a fold of calls, and an empty one adopts the
payload's URL. -/
theorem claim_C8_witness :
    (Validate envAccept 0 (Except.error cacheMissErr) cNoKey ["x"]).client.cfg.serverURL
      = cNoKey.cfg.serverURL ∧
    (Validate envAccept 50 (Except.error cacheMissErr) c0 [tok88]).client.cfg.serverURL
      = payload0.ServerURL ∧
    ([(envAccept, 0, Except.error cacheMissErr, ["x"])].foldl
        (fun cl s => (Validate s.1 s.2.1 s.2.2.1 cl s.2.2.2).client)
        cNoKey).cfg.serverURL = cNoKey.cfg.serverURL := by
  refine ⟨claim_C8.1 envAccept 0 (Except.error cacheMissErr) cNoKey ["x"] (by decide),
    claim_C8.2.1 envAccept 50 (Except.error cacheMissErr) c0 [tok88] pk0 payload0
      (by decide) (by decide) rfl rfl rfl (by decide),
    claim_C8.2.2 [(envAccept, 0, Except.error cacheMissErr, ["x"])] cNoKey (by decide)⟩

/-- Claim C10: a bad public-key string is silently discarded by
`WithPublicKey`: `NewClient` still succeeds with no key configured, and
a later `Validate` with a resolvable token fails with the `NoPublicKey`
sentinel and never with any `ValidationError` (in particular never with
`PubKeyDecodeError`). -/
theorem claim_C10 (key t : String) (e : VError) (env : CryptoEnv)
    (now : Int) (cacheLoad : Except GoError License)
    (hbad : DecodePublicKey key = Except.error e) (ht : t ≠ "") :
    (NewClient [WithPublicKey key, WithToken t]).2 = none ∧
    (NewClient [WithPublicKey key, WithToken t]).1.cfg.publicKey = none ∧
    (Validate env now cacheLoad
        (NewClient [WithPublicKey key, WithToken t]).1 []).err =
      some ErrNoPublicKey ∧
    (∀ ve : VError,
      (Validate env now cacheLoad
          (NewClient [WithPublicKey key, WithToken t]).1 []).err ≠
        some (GoError.validationError ve)) := by
  have hc : (NewClient [WithPublicKey key, WithToken t]).1.cfg.publicKey
      = none := by
    simp [NewClient, WithPublicKey, WithToken, emptyConfig, hbad]
  have hcl : ¬(NewClient [WithPublicKey key, WithToken t]).1.closed = true := by
    simp [NewClient]
  have htokc : resolveToken [] (NewClient [WithPublicKey key, WithToken t]).1
      ≠ "" := by
    simp [resolveToken, NewClient, WithPublicKey, WithToken, emptyConfig,
      hbad, ht]
  have herr := Validate_noKey_eq env now cacheLoad
    (NewClient [WithPublicKey key, WithToken t]).1 [] hcl htokc hc
  refine ⟨rfl, hc, by rw [herr], ?_⟩
  intro ve
  rw [herr]
  simp [ErrNoPublicKey]

/-- Witness for claim C10 at a concrete malformed key string. -/
theorem claim_C10_witness :
    (NewClient [WithPublicKey "!!!", WithToken "x"]).2 = none ∧
    (NewClient [WithPublicKey "!!!", WithToken "x"]).1.cfg.publicKey
      = none ∧
    (Validate envAccept 0 (Except.error cacheMissErr)
        (NewClient [WithPublicKey "!!!", WithToken "x"]).1 []).err =
      some ErrNoPublicKey ∧
    (Validate envAccept 0 (Except.error cacheMissErr)
        (NewClient [WithPublicKey "!!!", WithToken "x"]).1 []).err ≠
      some (GoError.validationError
        ⟨.PubKeyDecodeError, "failed to base64-decode public key"⟩) := by
  have h := claim_C10 "!!!" "x"
    ⟨.PubKeyDecodeError, "failed to base64-decode public key"⟩
    envAccept 0 (Except.error cacheMissErr) rfl (by decide)
  exact ⟨h.1, h.2.1, h.2.2.1,
    h.2.2.2 ⟨.PubKeyDecodeError, "failed to base64-decode public key"⟩⟩

/-- Claim C4: a token that base64-decodes to more than the 64 signature
bytes but whose payload does not verify against the signature fails with
`InvalidLicenseSignature` (and no payload); in particular a correctly
encoded token whose payload bytes were tampered with while keeping the
original signature fails with invalid-signature, never with a decode
error. -/
theorem claim_C4 :
    (∀ (env : CryptoEnv) (pk : List Nat) (tok : String)
       (combined : List Nat),
      base64DecodeString tok = some combined →
      combined.length > signatureSize →
      env.ed25519Verify pk (combined.drop signatureSize)
        (combined.take signatureSize) = false →
      verifyToken env pk tok =
        Except.error ⟨.InvalidLicenseSignature,
          "Ed25519 signature verification failed"⟩) ∧
    (∀ (env : CryptoEnv) (pk sig payload : List Nat),
      sig.length = signatureSize → payload ≠ [] →
      (∀ b ∈ sig ++ payload, b < 256) →
      env.ed25519Verify pk payload sig = false →
      verifyToken env pk (String.mk (b64EncodeGo (sig ++ payload))) =
        Except.error ⟨.InvalidLicenseSignature,
          "Ed25519 signature verification failed"⟩) := by
  constructor
  · intro env pk tok combined hdec hlen hver
    simp only [verifyToken, hdec]
    rw [if_neg (by omega : ¬combined.length ≤ signatureSize)]
    simp [hver]
  · intro env pk sig payload hsig hpay hbound hver
    have hdec : base64DecodeString (String.mk (b64EncodeGo (sig ++ payload)))
        = some (sig ++ payload) := b64_roundtrip (sig ++ payload) hbound
    have hlen : (sig ++ payload).length > signatureSize := by
      have := List.length_pos.mpr hpay
      simp only [List.length_append, hsig]
      omega
    have htake : (sig ++ payload).take signatureSize = sig :=
      List.take_left' hsig
    have hdrop : (sig ++ payload).drop signatureSize = payload :=
      List.drop_left' hsig
    simp only [verifyToken, hdec]
    rw [if_neg (by omega : ¬(sig ++ payload).length ≤ signatureSize)]
    rw [htake, hdrop]
    simp [hver]

/-- Witness for claim C4: a rejecting verifier on a 66-byte decoded
token, and on an explicitly encoded signature-plus-payload token. -/
theorem claim_C4_witness :
    verifyToken envReject pk0 tok88 =
      Except.error ⟨.InvalidLicenseSignature,
        "Ed25519 signature verification failed"⟩ ∧
    verifyToken envReject pk0
        (String.mk (b64EncodeGo (List.replicate 64 0 ++ [1, 2]))) =
      Except.error ⟨.InvalidLicenseSignature,
        "Ed25519 signature verification failed"⟩ := by
  refine ⟨claim_C4.1 envReject pk0 tok88 (List.replicate 66 0) rfl
      (by decide) rfl,
    claim_C4.2 envReject pk0 (List.replicate 64 0) [1, 2] (by decide)
      (by decide) (by decide) rfl⟩

end LicenseEdict
